import Mathlib

/-!
Shallow embedding of the Smart-Bookmark application core, translated from the
repository source:

* `app/api/metadata/route.js` (the metadata resolver route the client fetches
  at `/api/metadata`; in the repository snapshot this is the file whose header
  comment names that path) — URL validation, bounded fetch, layered title
  extraction, entity decoding, hostname fallback;
* `app/api/search/route.js` — provider fallthrough and result shaping;
* `app/page.js` — realtime reconciliation reducer, debounced filter and
  pagination, metadata cache, save-rate guard.

External effects (the WHATWG `new URL` validity check, the outbound `fetch`,
the search providers) are modelled as explicit oracle inputs; everything the
handlers compute from those inputs is embedded as executable Lean functions.
-/

set_option maxHeartbeats 1000000

namespace SmartBookmark

/-! ## String helpers mirroring the JavaScript primitives -/

/-- JS prefix test over character lists: `startsWithSeq needle hay` is true
iff `needle` is an initial segment of `hay`. -/
def startsWithSeq : List Char → List Char → Bool
  | [], _ => true
  | _ :: _, [] => false
  | a :: as, b :: bs => a == b && startsWithSeq as bs

/-- JS `hay.includes(needle)` over character lists (substring containment;
the empty needle is contained in everything). -/
def containsSeq (needle : List Char) : List Char → Bool
  | [] => needle.isEmpty
  | b :: bs => startsWithSeq needle (b :: bs) || containsSeq needle bs

/-- JS `hay.includes(needle)` on strings. -/
def strIncludes (hay needle : String) : Bool :=
  containsSeq needle.toList hay.toList

/-- JS `s.startsWith(p)` on strings, computed on the character lists. -/
def jsStartsWith (s p : String) : Bool :=
  startsWithSeq p.toList s.toList

/-- JS `s.slice(n)` (drop the first `n` characters). -/
def jsDropChars (s : String) (n : Nat) : String :=
  String.mk (s.toList.drop n)

/-- JS scheme-stripping step of the fallback-title derivation: the source
regex is `^https?:\/\/(www\.)?` (case-sensitive, anchored),
so the scheme `http://` or `https://` is stripped when present, and a
following `www.` is stripped only together with a scheme. -/
def stripSchemeWww (s : String) : String :=
  if jsStartsWith s "https://" then
    let r := jsDropChars s 8
    if jsStartsWith r "www." then jsDropChars r 4 else r
  else if jsStartsWith s "http://" then
    let r := jsDropChars s 7
    if jsStartsWith r "www." then jsDropChars r 4 else r
  else s

/-- JS `s.split("/")[0]`: the characters before the first `/` (the whole
string when it holds no `/`; the empty string when it starts with `/` or is
empty, matching `"".split("/")[0] === ""`). -/
def firstSegment (s : String) : String :=
  String.mk (s.toList.takeWhile (fun c => !(c == '/')))

/-- The hostname-derived fallback title used throughout the metadata route:
`url.replace(/^https?:\/\/(www\.)?/, "").split("/")[0]`. -/
def hostFallback (s : String) : String :=
  firstSegment (stripSchemeWww s)

/-- Global left-to-right non-overlapping replacement over character lists,
the semantics of JS `s.replace(/pat/g, rep)` for a literal non-empty `pat`.
Structured with a fuel argument (instantiated with the list length) so that
it is structurally recursive; an empty pattern is a no-op (never used). -/
def replaceFuel (pat rep : List Char) : Nat → List Char → List Char
  | _, [] => []
  | 0, s => s
  | Nat.succ fuel, c :: cs =>
    if !pat.isEmpty && startsWithSeq pat (c :: cs) then
      rep ++ replaceFuel pat rep fuel ((c :: cs).drop pat.length)
    else
      c :: replaceFuel pat rep fuel cs

/-- JS `s.replace(/pat/g, rep)` on strings (literal non-empty pattern). -/
def jsReplaceAll (s pat rep : String) : String :=
  String.mk (replaceFuel pat.toList rep.toList s.toList.length s.toList)

/-- Whitespace class used by the trim model (ASCII whitespace; the titles the
route trims only contain these). -/
def isWS (c : Char) : Bool :=
  c == ' ' || c == '\t' || c == '\n' || c == '\r'

/-- JS `s.trim()`. -/
def jsTrim (s : String) : String :=
  String.mk (((s.toList.dropWhile isWS).reverse.dropWhile isWS).reverse)

/-- ASCII lower-casing of one character (JS `toLowerCase` on the inputs the
page handles). -/
def lowerChar (c : Char) : Char :=
  if 65 ≤ c.toNat && c.toNat ≤ 90 then Char.ofNat (c.toNat + 32) else c

/-- JS `s.toLowerCase()`. -/
def jsToLower (s : String) : String :=
  String.mk (s.toList.map lowerChar)

/-- The apostrophe character, used by the `&#039;` entity decoding. -/
def apos : String := String.singleton (Char.ofNat 39)

/-- The entity-decoding chain of the metadata route: six sequential global
`String.replace` calls, in source order. -/
def decodeEntities (s : String) : String :=
  jsReplaceAll (jsReplaceAll (jsReplaceAll (jsReplaceAll (jsReplaceAll
    (jsReplaceAll s "&amp;" "&") "&lt;" "<") "&gt;" ">") "&quot;" "\"")
    "&#039;" apos) "&nbsp;" " "

/-! ## Metadata resolver route (`GET /api/metadata`) -/

/-- Result of the three regex `match` calls the route performs on the fetched
HTML body.  Each field is `some c` when the corresponding regex matched with
captured content `c` (the captures come from `([^"\x27]+)` and `([^<]+)`
groups, hence a match always captures a non-empty string, but the embedding
keeps the field general and reproduces the route's truthiness tests). -/
structure PageBody where
  ogTitle : Option String
  twitterTitle : Option String
  titleTag : Option String
deriving Repr, DecidableEq

/-- Outcome of the route's single outbound `fetch` of the target URL. -/
inductive FetchOutcome where
  /-- `response.ok` was true and the body was read; the three regex matches
  on the body are recorded in `body`. -/
  | ok (body : PageBody)
  /-- a response arrived with `response.ok` false (non-2xx status). -/
  | httpError (status : Nat)
  /-- the 8-second abort fired (`fetchError.name === "AbortError"`). -/
  | timeout
  /-- any other exception from `fetch`/`response.text()`, rethrown to the
  route's outer catch. -/
  | netError
deriving Repr, DecidableEq

/-- JSON body and status of a metadata-route response.  `title` is a plain
string because every response of the route carries one. -/
structure MetaResponse where
  status : Nat
  title : String
  url : Option String
  error : Option String
  warning : Option String
deriving Repr, DecidableEq

/-- The truthiness-guarded extraction chain: start from the empty string and
take the first of the og/twitter/title captures that leaves it non-empty
(`if (!title)` between steps). -/
def rawTitle (b : PageBody) : String :=
  let t := b.ogTitle.getD ""
  let t := if t = "" then b.twitterTitle.getD "" else t
  let t := if t = "" then b.titleTag.getD "" else t
  t

/-- The first raw match after the entity-decode-and-trim step the route
applies when a raw match was found (`if (title) { title = ...trim() }`). -/
def decodedTitle (b : PageBody) : String :=
  let t := rawTitle b
  if t = "" then t else jsTrim (decodeEntities t)

/-- Title computed by the route's success path: first raw match, entity-decoded
and trimmed when non-empty, then the hostname fallback when empty, then the
final `title || "Untitled"` guard of the JSON literal. -/
def extractTitle (b : PageBody) (url : String) : String :=
  let t := decodedTitle b
  let t := if t = "" then hostFallback url else t
  if t = "" then "Untitled" else t

/-- The metadata route handler.  `urlParam` is `searchParams.get("url")`
(`none` for an absent parameter), `urlValid` is the oracle outcome of
`new URL(url)` (true iff the constructor did not throw), and `outcome` is the
oracle outcome of the outbound fetch.  Returns the response together with a
flag recording whether the outbound fetch was attempted at all. -/
def metadataGET (urlParam : Option String) (urlValid : Bool)
    (outcome : FetchOutcome) : MetaResponse × Bool :=
  match urlParam with
  | none => (⟨400, "Untitled", none, some "URL is required", none⟩, false)
  | some url =>
    if url = "" then
      (⟨400, "Untitled", none, some "URL is required", none⟩, false)
    else if !urlValid then
      (⟨400, "Untitled", some url, some "Invalid URL", none⟩, false)
    else
      match outcome with
      | .ok body => (⟨200, extractTitle body url, some url, none, none⟩, true)
      | .httpError _ => (⟨200, hostFallback url, some url, none, none⟩, true)
      | .timeout => (⟨200, hostFallback url, some url, none, none⟩, true)
      | .netError =>
        (⟨200, hostFallback url, some url, none,
          some "Could not fetch full metadata"⟩, true)

/-! ## Search route (`GET /api/search`) -/

/-- One upstream provider item (`organic_results` entry for SerpAPI, `items`
entry for Google Custom Search): `title` and `link` are strings per the
providers' schemas, `snippet` may be absent (the route applies
`item.snippet || ""`). -/
structure RawItem where
  title : String
  link : String
  snippet : Option String
deriving Repr, DecidableEq

/-- A result entry of the search route's response body. -/
structure SearchItem where
  title : String
  url : String
  description : String
deriving Repr, DecidableEq

/-- Status and body of a search-route response. -/
structure SearchResponse where
  status : Nat
  error : Option String
  results : List SearchItem
  warning : Option String
deriving Repr, DecidableEq

/-- The item-shaping map both provider branches apply. -/
def mapItem (r : RawItem) : SearchItem :=
  ⟨r.title, r.link, r.snippet.getD ""⟩

/-- One hexadecimal digit, uppercase. -/
def hexDigit (n : Nat) : Char :=
  if n < 10 then Char.ofNat (48 + n) else Char.ofNat (55 + n)

/-- Characters `encodeURIComponent` leaves unescaped. -/
def isUnreservedURI (c : Char) : Bool :=
  c.isAlphanum || c == '-' || c == '_' || c == '.' || c == '!' || c == '~' ||
    c == '*' || c == Char.ofNat 39 || c == '(' || c == ')'

/-- Percent-encoding of one UTF-8 byte. -/
def percentEncodeByte (b : UInt8) : List Char :=
  ['%', hexDigit (b.toNat / 16), hexDigit (b.toNat % 16)]

/-- JS `encodeURIComponent`. -/
def encodeURIComponent (s : String) : String :=
  String.mk (s.toList.foldr
    (fun c acc =>
      (if isUnreservedURI c then [c]
       else (String.utf8EncodeChar c).foldr (fun b a => percentEncodeByte b ++ a) []) ++ acc)
    [])

/-- The three placeholder entries returned when no provider is configured or
every configured provider failed. -/
def mockResults (query : String) : List SearchItem :=
  [⟨"Search API Not Configured - Showing mock result for: " ++ query,
    "https://www.google.com/search?q=" ++ encodeURIComponent query,
    "To enable real search results, add SERP_API_KEY or GOOGLE_SEARCH_API_KEY to your environment variables. Click here to search on Google instead."⟩,
   ⟨"How to Enable Search", "https://serpapi.com",
    "Sign up for a free SerpAPI account (100 searches/month) and add SERP_API_KEY to your Vercel environment variables."⟩,
   ⟨"Alternative: Google Custom Search", "https://programmablesearchengine.google.com",
    "Or use Google Custom Search API - create a search engine and add GOOGLE_SEARCH_API_KEY and GOOGLE_SEARCH_ENGINE_ID."⟩]

/-- Google-Custom-Search phase and mock fallback of the search route.
`googleRes = some items` models a configured provider whose fetch returned
OK with the given `items` array (`data.items || []`); `none` models a
missing key pair, a non-OK response, or an exception, all of which fall
through to the mock results.  Note the Google branch slices to 10. -/
def googlePhase (query : String) (googleConf : Bool)
    (googleRes : Option (List RawItem)) : SearchResponse :=
  if googleConf then
    match googleRes with
    | some items => ⟨200, none, (items.take 10).map mapItem, none⟩
    | none =>
      ⟨200, none, mockResults query,
        some "Using mock results - add API keys for real search"⟩
  else
    ⟨200, none, mockResults query,
      some "Using mock results - add API keys for real search"⟩

/-- The search route handler.  `q` is `searchParams.get("q")`; `serpConf`
models the presence of `SERP_API_KEY`; `serpRes = some organic` models an OK
SerpAPI response with the given `organic_results` array (note: returned
unsliced), `none` a failed SerpAPI attempt falling through. -/
def searchGET (q : Option String) (serpConf : Bool)
    (serpRes : Option (List RawItem)) (googleConf : Bool)
    (googleRes : Option (List RawItem)) : SearchResponse :=
  match q with
  | none => ⟨400, some "Query is required", [], none⟩
  | some query =>
    if query = "" then ⟨400, some "Query is required", [], none⟩
    else if serpConf then
      match serpRes with
      | some organic => ⟨200, none, organic.map mapItem, none⟩
      | none => googlePhase query googleConf googleRes
    else googlePhase query googleConf googleRes

/-! ## Client page (`app/page.js`) -/

/-- A bookmark row as the page uses it (`id` is the store-assigned uuid). -/
structure Bookmark where
  id : String
  title : String
  url : String
deriving Repr, DecidableEq

/-- A realtime change notification: `payload.eventType` with the `new` /
`old` record; `other` models any unrecognized event type, which falls
through to `return prev`. -/
inductive RTEvent where
  | insert (newRecord : Bookmark)
  | update (newRecord : Bookmark)
  | delete (oldRecord : Bookmark)
  | other
deriving Repr, DecidableEq

/-- The `setBookmarks` reducer of the realtime subscription handler. -/
def applyEvent (prev : List Bookmark) (e : RTEvent) : List Bookmark :=
  match e with
  | .insert n => if prev.any (fun b => b.id == n.id) then prev else n :: prev
  | .update n => prev.map (fun b => if b.id == n.id then n else b)
  | .delete o => prev.filter (fun b => b.id != o.id)
  | .other => prev

/-- `const PAGE_SIZE = 6`. -/
def PAGE_SIZE : Nat := 6

/-- The filter predicate of the `filtered` memo: case-insensitive substring
match of the debounced search term against the bookmark's title only. -/
def filterPred (debouncedSearch : String) (b : Bookmark) : Bool :=
  strIncludes (jsToLower b.title) (jsToLower debouncedSearch)

/-- The `filtered` memo. -/
def filteredView (bookmarks : List Bookmark) (debouncedSearch : String) :
    List Bookmark :=
  bookmarks.filter (filterPred debouncedSearch)

/-- The `paginated` memo: `filtered.slice(0, page * PAGE_SIZE)`. -/
def paginatedView (bookmarks : List Bookmark) (debouncedSearch : String)
    (page : Nat) : List Bookmark :=
  (filteredView bookmarks debouncedSearch).take (page * PAGE_SIZE)

/-- A metadata-route JSON body as the client caches it. -/
structure MetaData where
  title : String
  url : String
  warning : Option String
deriving Repr, DecidableEq

/-- The `metadataCache` Map, as an association list; `cacheSet` prepends, so
lookups see the newest binding for a key (JS `Map.set` overwrite
semantics for `get`/`has`). -/
abbrev Cache := List (String × MetaData)

/-- JS `metadataCache.has(url)`. -/
def cacheHas (c : Cache) (k : String) : Bool :=
  c.any (fun e => e.1 == k)

/-- JS `metadataCache.get(url)`. -/
def cacheGet (c : Cache) (k : String) : Option MetaData :=
  (c.find? (fun e => e.1 == k)).map (fun e => e.2)

/-- JS `metadataCache.set(url, data)`. -/
def cacheSet (c : Cache) (k : String) (v : MetaData) : Cache :=
  (k, v) :: c

/-- Outcome of the client's `fetch("/api/metadata?url=...")` call: `ok d`
models `response.ok` with parsed JSON `d`; `notOk` a non-2xx response
(falls off the `if` and returns null); `exn` a thrown network error
(caught, returns null). -/
inductive ResolverOutcome where
  | ok (d : MetaData)
  | notOk
  | exn
deriving Repr, DecidableEq

/-- Result of one `fetchPageMetadata` call: the returned value, the cache
state afterwards, and how many outbound resolver calls were made. -/
structure FetchMetaOut where
  result : Option MetaData
  cache : Cache
  networkCalls : Nat
deriving Repr, DecidableEq

/-- The client's `fetchPageMetadata`: cache hit returns the cached value with
no network call; a miss performs one resolver call and caches the body only
when the response was OK. -/
def fetchPageMetadata (cache : Cache) (url : String)
    (outcome : ResolverOutcome) : FetchMetaOut :=
  if cacheHas cache url then ⟨cacheGet cache url, cache, 0⟩
  else
    match outcome with
    | .ok d => ⟨some d, cacheSet cache url d, 1⟩
    | .notOk => ⟨none, cache, 1⟩
    | .exn => ⟨none, cache, 1⟩

/-- What a save attempt does before any store response arrives. -/
inductive SaveOutcome where
  | fieldError
  | invalidUrl
  | tooFast
  | insertIssued (title url : String)
  | updateIssued (id title url : String)
deriving Repr, DecidableEq

/-- The page's `handleSave`: field checks, URL validity (oracle `urlValid`
for `isValidUrl`), the 1200 ms minimum-interval guard against the module
global `lastSaveTime` (updated only when the guard passes), then an update
or insert depending on `editingId`.  Returns the outcome and the new
`lastSaveTime`. -/
def handleSave (lastSaveTime now : Int) (title url : String)
    (urlValid : Bool) (editingId : Option String) : SaveOutcome × Int :=
  if jsTrim title = "" ∨ jsTrim url = "" then (.fieldError, lastSaveTime)
  else if !urlValid then (.invalidUrl, lastSaveTime)
  else if now - lastSaveTime < 1200 then (.tooFast, lastSaveTime)
  else
    match editingId with
    | some i => (.updateIssued i title url, now)
    | none => (.insertIssued title url, now)

/-- The page's `addFromSearch`: issues the store insert for the chosen search
result immediately — it consults no clock and no `lastSaveTime`, so it is
not subject to the minimum-interval guard. -/
def addFromSearch (r : SearchItem) : SaveOutcome :=
  .insertIssued r.title r.url

/-! ## Theorems -/

/-- C4: For every request to the metadata route whose url query parameter is
missing (or read as the empty string) or not a syntactically valid URL
(`new URL` throws, oracle `urlValid = false`), the route returns a 400
response with a structured error message and never attempts the outbound
fetch of the target. -/
theorem metadata_validation_C4 (urlParam : Option String) (urlValid : Bool)
    (outcome : FetchOutcome)
    (h : urlParam = none ∨ urlParam = some "" ∨ urlValid = false) :
    (metadataGET urlParam urlValid outcome).1.status = 400 ∧
    (metadataGET urlParam urlValid outcome).1.error ≠ none ∧
    (metadataGET urlParam urlValid outcome).2 = false := by
  rcases h with h | h | h
  · subst h; simp [metadataGET]
  · subst h; simp [metadataGET]
  · subst h
    cases urlParam with
    | none => simp [metadataGET]
    | some u =>
      by_cases hu : u = "" <;> simp [metadataGET, hu]

/-- Witness for C4 at the concrete input of a missing url parameter. -/
theorem metadata_validation_C4_witness :
    (metadataGET none true .timeout).1.status = 400 ∧
    (metadataGET none true .timeout).1.error ≠ none ∧
    (metadataGET none true .timeout).2 = false :=
  metadata_validation_C4 none true .timeout (Or.inl rfl)

/-- C5: the reconciliation reducer's INSERT branch is idempotent: for a list
not containing the incoming id the record is prepended; replaying the same
INSERT (and, generally, any INSERT whose id is already present) leaves the
list unchanged, and after the replay the list holds exactly one entry with
that id. -/
theorem insert_idempotent_C5 (prev : List Bookmark) (n : Bookmark)
    (h : ∀ b ∈ prev, b.id ≠ n.id) :
    applyEvent prev (.insert n) = n :: prev ∧
    applyEvent (applyEvent prev (.insert n)) (.insert n) =
      applyEvent prev (.insert n) ∧
    (applyEvent (applyEvent prev (.insert n)) (.insert n)).countP
      (fun b => b.id == n.id) = 1 ∧
    (∀ (l : List Bookmark) (m : Bookmark), (∃ b ∈ l, b.id = m.id) →
      applyEvent l (.insert m) = l) := by
  have hany : prev.any (fun b => b.id == n.id) = false := by
    simp only [List.any_eq_false]
    intro b hb
    simpa using h b hb
  have hpresent : ∀ (l : List Bookmark) (m : Bookmark),
      (∃ b ∈ l, b.id = m.id) → applyEvent l (.insert m) = l := by
    intro l m hm
    have : l.any (fun b => b.id == m.id) = true := by
      rcases hm with ⟨b, hb, hid⟩
      simp only [List.any_eq_true]
      exact ⟨b, hb, by simpa using hid⟩
    simp [applyEvent, this]
  have h1 : applyEvent prev (.insert n) = n :: prev := by
    simp [applyEvent, hany]
  have h2 : applyEvent (n :: prev) (.insert n) = n :: prev :=
    hpresent (n :: prev) n ⟨n, by simp, rfl⟩
  refine ⟨h1, by rw [h1, h2], ?_, hpresent⟩
  rw [h1, h2]
  have hzero : prev.countP (fun b => b.id == n.id) = 0 := by
    apply List.countP_eq_zero.mpr
    intro b hb
    simpa using h b hb
  simp [List.countP_cons, hzero]

/-- Witness for C5 at a concrete one-element list and fresh record. -/
theorem insert_idempotent_C5_witness :
    (∀ b ∈ [(⟨"a", "A", "https://a.example"⟩ : Bookmark)],
      b.id ≠ ("b" : String)) ∧
    (applyEvent [⟨"a", "A", "https://a.example"⟩]
        (.insert ⟨"b", "B", "https://b.example"⟩) =
      [⟨"b", "B", "https://b.example"⟩, ⟨"a", "A", "https://a.example"⟩] ∧
    applyEvent (applyEvent [⟨"a", "A", "https://a.example"⟩]
        (.insert ⟨"b", "B", "https://b.example"⟩))
        (.insert ⟨"b", "B", "https://b.example"⟩) =
      applyEvent [⟨"a", "A", "https://a.example"⟩]
        (.insert ⟨"b", "B", "https://b.example"⟩) ∧
    (applyEvent (applyEvent [⟨"a", "A", "https://a.example"⟩]
        (.insert ⟨"b", "B", "https://b.example"⟩))
        (.insert ⟨"b", "B", "https://b.example"⟩)).countP
      (fun b => b.id == "b") = 1 ∧
    (∀ (l : List Bookmark) (m : Bookmark), (∃ b ∈ l, b.id = m.id) →
      applyEvent l (.insert m) = l)) :=
  ⟨by decide, insert_idempotent_C5 _ _ (by decide)⟩

/-- C7: the cache-then-resolver lookup makes no network call on a hit and
returns the cached value; on a miss answered OK it performs one call and
stores the body keyed by the exact URL string before returning it, so two
consecutive lookups of the same URL string perform exactly one outbound
call in total. -/
theorem cache_idempotent_C7 (c : Cache) (u : String) (d : MetaData)
    (o2 : ResolverOutcome) (hmiss : cacheHas c u = false) :
    (∀ (c2 : Cache) (o : ResolverOutcome), cacheHas c2 u = true →
      fetchPageMetadata c2 u o = ⟨cacheGet c2 u, c2, 0⟩) ∧
    fetchPageMetadata c u (.ok d) = ⟨some d, cacheSet c u d, 1⟩ ∧
    cacheGet (cacheSet c u d) u = some d ∧
    (fetchPageMetadata c u (.ok d)).networkCalls +
      (fetchPageMetadata (fetchPageMetadata c u (.ok d)).cache u
        o2).networkCalls = 1 := by
  have hhit : ∀ (c2 : Cache) (o : ResolverOutcome), cacheHas c2 u = true →
      fetchPageMetadata c2 u o = ⟨cacheGet c2 u, c2, 0⟩ := by
    intro c2 o h
    simp [fetchPageMetadata, h]
  have hmissok : fetchPageMetadata c u (.ok d) = ⟨some d, cacheSet c u d, 1⟩ := by
    simp [fetchPageMetadata, hmiss]
  have hsethas : cacheHas (cacheSet c u d) u = true := by
    simp [cacheHas, cacheSet]
  refine ⟨hhit, hmissok, ?_, ?_⟩
  · simp [cacheGet, cacheSet, List.find?]
  · rw [hmissok]
    rw [hhit _ o2 hsethas]
    rfl

/-- Witness for C7: empty cache, a concrete URL and metadata body. -/
theorem cache_idempotent_C7_witness :
    cacheHas [] "https://example.com" = false ∧
    ((∀ (c2 : Cache) (o : ResolverOutcome),
        cacheHas c2 "https://example.com" = true →
        fetchPageMetadata c2 "https://example.com" o =
          ⟨cacheGet c2 "https://example.com", c2, 0⟩) ∧
    fetchPageMetadata [] "https://example.com"
        (.ok ⟨"Example", "https://example.com", none⟩) =
      ⟨some ⟨"Example", "https://example.com", none⟩,
        cacheSet [] "https://example.com"
          ⟨"Example", "https://example.com", none⟩, 1⟩ ∧
    cacheGet (cacheSet [] "https://example.com"
        ⟨"Example", "https://example.com", none⟩) "https://example.com" =
      some ⟨"Example", "https://example.com", none⟩ ∧
    (fetchPageMetadata [] "https://example.com"
        (.ok ⟨"Example", "https://example.com", none⟩)).networkCalls +
      (fetchPageMetadata (fetchPageMetadata [] "https://example.com"
          (.ok ⟨"Example", "https://example.com", none⟩)).cache
        "https://example.com" .exn).networkCalls = 1) :=
  ⟨by decide, cache_idempotent_C7 [] "https://example.com" _ .exn (by decide)⟩

/-- Helper: in a list with pairwise-distinct ids, the DELETE filter removes
at most one element. -/
theorem bookmark_delete_length (l : List Bookmark) (x : String)
    (h : (l.map (fun b => b.id)).Nodup) :
    l.length ≤ (l.filter (fun b => b.id != x)).length + 1 := by
  induction l with
  | nil => simp
  | cons b t ih =>
    rw [List.map_cons, List.nodup_cons] at h
    by_cases hb : b.id = x
    · have hall : t.filter (fun c => c.id != x) = t := by
        apply List.filter_eq_self.mpr
        intro c hc
        have hne : c.id ≠ x := by
          intro hcx
          exact h.1 (by
            rw [hb, ← hcx]
            exact List.mem_map_of_mem _ hc)
        simpa [bne_iff_ne] using hne
      have hfalse : (b.id != x) = false := by simpa [bne_iff_ne] using hb
      simp [List.filter_cons, hfalse, hall]
    · have htrue : (b.id != x) = true := by simpa [bne_iff_ne] using hb
      simp only [List.filter_cons, htrue, if_true, List.length_cons]
      exact Nat.succ_le_succ (ih h.2)

/-- Helper: the UPDATE branch preserves the list of ids elementwise. -/
theorem update_ids (l : List Bookmark) (n : Bookmark) :
    (l.map (fun b => if b.id == n.id then n else b)).map (fun b => b.id) =
      l.map (fun b => b.id) := by
  induction l with
  | nil => rfl
  | cons b t ih =>
    simp only [List.map_cons, ih]
    congr 1
    by_cases hb : b.id = n.id
    · simp [hb]
    · simp [beq_iff_eq, hb]

/-- C10: the reconciliation reducer preserves pairwise-distinct bookmark ids
for every event with any payload, changes the length by at most one per
event, never changes the length on UPDATE, and leaves the list unchanged on
a dropped (unrecognized) event. -/
theorem reducer_invariants_C10 (prev : List Bookmark) (e : RTEvent)
    (h : (prev.map (fun b => b.id)).Nodup) :
    ((applyEvent prev e).map (fun b => b.id)).Nodup ∧
    (applyEvent prev e).length ≤ prev.length + 1 ∧
    prev.length ≤ (applyEvent prev e).length + 1 ∧
    (∀ n, e = RTEvent.update n → (applyEvent prev e).length = prev.length) ∧
    (e = RTEvent.other → applyEvent prev e = prev) := by
  cases e with
  | insert n =>
    by_cases hin : prev.any (fun b => b.id == n.id) = true
    · simp only [applyEvent, hin, if_true]
      exact ⟨h, Nat.le_succ _, Nat.le_succ _,
        fun m hm => RTEvent.noConfusion hm, fun hm => RTEvent.noConfusion hm⟩
    · rw [Bool.not_eq_true] at hin
      simp only [applyEvent, hin, Bool.false_eq_true, if_false]
      refine ⟨?_, ?_, ?_, fun m hm => RTEvent.noConfusion hm,
        fun hm => RTEvent.noConfusion hm⟩
      · rw [List.map_cons, List.nodup_cons]
        refine ⟨?_, h⟩
        intro hmem
        rcases List.mem_map.mp hmem with ⟨b, hb, hid⟩
        have := List.any_eq_false.mp hin b hb
        simp [hid] at this
      · simp
      · simp [Nat.le_succ_of_le]
  | update n =>
    have hids : ((applyEvent prev (.update n)).map (fun b => b.id)) =
        prev.map (fun b => b.id) := by
      simp only [applyEvent]
      exact update_ids prev n
    have hlen : (applyEvent prev (.update n)).length = prev.length := by
      simp [applyEvent]
    refine ⟨by rw [hids]; exact h, by rw [hlen]; exact Nat.le_succ _,
      by rw [hlen]; exact Nat.le_succ _, fun m _ => hlen,
      fun hm => RTEvent.noConfusion hm⟩
  | delete o =>
    have hsub : List.Sublist (applyEvent prev (.delete o)) prev := by
      simp only [applyEvent]
      exact List.filter_sublist prev
    refine ⟨?_, ?_, ?_, fun m hm => RTEvent.noConfusion hm,
      fun hm => RTEvent.noConfusion hm⟩
    · exact (hsub.map (fun b => b.id)).nodup h
    · exact Nat.le_succ_of_le (Nat.le_trans hsub.length_le (Nat.le_refl _))
    · simpa only [applyEvent] using bookmark_delete_length prev o.id h
  | other =>
    exact ⟨h, Nat.le_succ _, Nat.le_succ _,
      fun m hm => RTEvent.noConfusion hm, fun _ => rfl⟩

/-- Witness for C10 at a concrete two-element list and a DELETE event. -/
theorem reducer_invariants_C10_witness :
    (([⟨"a", "A", "ua"⟩, ⟨"b", "B", "ub"⟩] : List Bookmark).map
      (fun b => b.id)).Nodup ∧
    (((applyEvent [⟨"a", "A", "ua"⟩, ⟨"b", "B", "ub"⟩]
        (.delete ⟨"a", "A", "ua"⟩)).map (fun b => b.id)).Nodup ∧
    (applyEvent [⟨"a", "A", "ua"⟩, ⟨"b", "B", "ub"⟩]
        (.delete ⟨"a", "A", "ua"⟩)).length ≤
      ([⟨"a", "A", "ua"⟩, ⟨"b", "B", "ub"⟩] : List Bookmark).length + 1 ∧
    ([⟨"a", "A", "ua"⟩, ⟨"b", "B", "ub"⟩] : List Bookmark).length ≤
      (applyEvent [⟨"a", "A", "ua"⟩, ⟨"b", "B", "ub"⟩]
        (.delete ⟨"a", "A", "ua"⟩)).length + 1 ∧
    (∀ n, RTEvent.delete ⟨"a", "A", "ua"⟩ = RTEvent.update n →
      (applyEvent [⟨"a", "A", "ua"⟩, ⟨"b", "B", "ub"⟩]
        (.delete ⟨"a", "A", "ua"⟩)).length =
      ([⟨"a", "A", "ua"⟩, ⟨"b", "B", "ub"⟩] : List Bookmark).length) ∧
    (RTEvent.delete ⟨"a", "A", "ua"⟩ = RTEvent.other →
      applyEvent [⟨"a", "A", "ua"⟩, ⟨"b", "B", "ub"⟩]
        (.delete ⟨"a", "A", "ua"⟩) =
      [⟨"a", "A", "ua"⟩, ⟨"b", "B", "ub"⟩])) :=
  ⟨by decide, reducer_invariants_C10 _ _ (by decide)⟩

/-- C6: the derived view is the first `min(page * 6, n)` elements, in order,
of the title-filtered list; the filter consults only the title
(case-insensitive substring of the debounced term); advancing the page once
all filtered items are shown leaves the view unchanged. -/
theorem view_pipeline_C6 (bm : List Bookmark) (s : String) (p : Nat)
    (_hp : 1 ≤ p) :
    paginatedView bm s p = (bm.filter (filterPred s)).take (p * 6) ∧
    (paginatedView bm s p).length =
      min (p * 6) (bm.filter (filterPred s)).length ∧
    (∀ b c : Bookmark, b.title = c.title → filterPred s b = filterPred s c) ∧
    ((filteredView bm s).length ≤ p * 6 →
      paginatedView bm s (p + 1) = paginatedView bm s p) := by
  refine ⟨rfl, ?_, ?_, ?_⟩
  · simp [paginatedView, filteredView, PAGE_SIZE, List.length_take]
  · intro b c hbc
    simp [filterPred, hbc]
  · intro hlen
    have h2 : (filteredView bm s).length ≤ (p + 1) * PAGE_SIZE := by
      refine Nat.le_trans hlen ?_
      show p * 6 ≤ (p + 1) * 6
      exact Nat.mul_le_mul_right 6 (Nat.le_succ p)
    have h1 : (filteredView bm s).length ≤ p * PAGE_SIZE := hlen
    rw [paginatedView, paginatedView, List.take_of_length_le h2,
      List.take_of_length_le h1]

/-- Witness for C6 at a concrete two-bookmark list, term `a`, page 1. -/
theorem view_pipeline_C6_witness :
    1 ≤ 1 ∧
    (paginatedView [⟨"1", "Alpha", "u1"⟩, ⟨"2", "Beta", "u2"⟩] "a" 1 =
      (([⟨"1", "Alpha", "u1"⟩, ⟨"2", "Beta", "u2"⟩] : List Bookmark).filter
        (filterPred "a")).take (1 * 6) ∧
    (paginatedView [⟨"1", "Alpha", "u1"⟩, ⟨"2", "Beta", "u2"⟩] "a" 1).length =
      min (1 * 6)
        (([⟨"1", "Alpha", "u1"⟩, ⟨"2", "Beta", "u2"⟩] : List Bookmark).filter
          (filterPred "a")).length ∧
    (∀ b c : Bookmark, b.title = c.title →
      filterPred "a" b = filterPred "a" c) ∧
    ((filteredView [⟨"1", "Alpha", "u1"⟩, ⟨"2", "Beta", "u2"⟩] "a").length ≤
        1 * 6 →
      paginatedView [⟨"1", "Alpha", "u1"⟩, ⟨"2", "Beta", "u2"⟩] "a" (1 + 1) =
      paginatedView [⟨"1", "Alpha", "u1"⟩, ⟨"2", "Beta", "u2"⟩] "a" 1)) :=
  ⟨by decide, view_pipeline_C6 _ _ _ (by decide)⟩

/-- Helper: the title computed by the success path is never the empty string
(the response literal applies a final fallback to the constant string
Untitled). -/
theorem extractTitle_ne_empty (b : PageBody) (url : String) :
    extractTitle b url ≠ "" := by
  by_cases h1 : decodedTitle b = ""
  · by_cases h2 : hostFallback url = "" <;> simp [extractTitle, h1, h2]
  · simp [extractTitle, h1]

/-- C1 counterexample: the claim demands a non-empty title for every
syntactically valid URL, but the input url `https://www.` is accepted by the
WHATWG URL constructor (`new URL("https://www.")` does not throw: its host
is the trailing-dot domain `www.`), and when the upstream fetch answers with
a non-success status the route's fallback
`url.replace(/^https?:\/\/(www\.)?/, "").split("/")[0]` strips the whole
input, so the 200 response carries the empty title. -/
theorem metadata_total_C1_counterexample :
    (metadataGET (some "https://www.") true (.httpError 404)).1.status =
      200 ∧
    (metadataGET (some "https://www.") true (.httpError 404)).1.title =
      "" := by
  decide

/-- C1 amended: for every syntactically valid url parameter the route always
answers with status 200 and no error field (no unhandled error or
error-status response), the outbound fetch is attempted, and the title is
non-empty whenever the hostname derivation of the URL is non-empty (in the
degraded paths the title is exactly that derivation, which is empty for
pathological hosts such as `www.`). -/
theorem metadata_total_C1 (u : String) (outcome : FetchOutcome)
    (hu : u ≠ "") :
    (metadataGET (some u) true outcome).1.status = 200 ∧
    (metadataGET (some u) true outcome).1.error = none ∧
    (metadataGET (some u) true outcome).2 = true ∧
    (hostFallback u ≠ "" →
      (metadataGET (some u) true outcome).1.title ≠ "") := by
  cases outcome with
  | ok body => simp [metadataGET, hu, extractTitle_ne_empty]
  | httpError s => simp [metadataGET, hu]
  | timeout => simp [metadataGET, hu]
  | netError => simp [metadataGET, hu]

/-- Witness for C1 at a concrete valid URL whose fetch times out. -/
theorem metadata_total_C1_witness :
    ("https://example.com" : String) ≠ "" ∧
    ((metadataGET (some "https://example.com") true .timeout).1.status =
      200 ∧
    (metadataGET (some "https://example.com") true .timeout).1.error =
      none ∧
    (metadataGET (some "https://example.com") true .timeout).2 = true ∧
    (hostFallback "https://example.com" ≠ "" →
      (metadataGET (some "https://example.com") true .timeout).1.title ≠
        "")) :=
  ⟨by decide, metadata_total_C1 _ .timeout (by decide)⟩

/-- C2 counterexample: on a timeout for `https://www.example.com/path` the
route returns the hostname-derived fallback title `example.com` with status
200, but the response carries no `warning` field — the claim's "degraded
flag is set" is false for the timeout (and non-success-status) paths, whose
response literal is only title and url. -/
theorem metadata_degraded_C2_counterexample :
    (metadataGET (some "https://www.example.com/path") true .timeout).1 =
      ⟨200, "example.com", some "https://www.example.com/path", none,
        none⟩ := by
  decide

/-- C2 amended: on timeout and on a non-success upstream status the route
returns a 200 result whose title is the hostname-derived fallback, but
WITHOUT the degraded `warning` flag; the flag is set only by the generic
unexpected-failure (outer catch) path. -/
theorem metadata_degraded_C2 (u : String) (s : Nat) (hu : u ≠ "") :
    (metadataGET (some u) true .timeout).1.status = 200 ∧
    (metadataGET (some u) true .timeout).1.title = hostFallback u ∧
    (metadataGET (some u) true .timeout).1.warning = none ∧
    (metadataGET (some u) true (.httpError s)).1.status = 200 ∧
    (metadataGET (some u) true (.httpError s)).1.title = hostFallback u ∧
    (metadataGET (some u) true (.httpError s)).1.warning = none ∧
    (metadataGET (some u) true .netError).1.title = hostFallback u ∧
    (metadataGET (some u) true .netError).1.warning ≠ none := by
  simp [metadataGET, hu]

/-- Witness for C2 at the spec's own example URL. -/
theorem metadata_degraded_C2_witness :
    ("https://www.example.com/path" : String) ≠ "" ∧
    ((metadataGET (some "https://www.example.com/path") true
        .timeout).1.status = 200 ∧
    (metadataGET (some "https://www.example.com/path") true
        .timeout).1.title = hostFallback "https://www.example.com/path" ∧
    (metadataGET (some "https://www.example.com/path") true
        .timeout).1.warning = none ∧
    (metadataGET (some "https://www.example.com/path") true
        (.httpError 500)).1.status = 200 ∧
    (metadataGET (some "https://www.example.com/path") true
        (.httpError 500)).1.title =
      hostFallback "https://www.example.com/path" ∧
    (metadataGET (some "https://www.example.com/path") true
        (.httpError 500)).1.warning = none ∧
    (metadataGET (some "https://www.example.com/path") true
        .netError).1.title = hostFallback "https://www.example.com/path" ∧
    (metadataGET (some "https://www.example.com/path") true
        .netError).1.warning ≠ none) :=
  ⟨by decide, metadata_degraded_C2 _ 500 (by decide)⟩

/-- Helper: a title with a non-empty decode-trim is itself non-empty. -/
theorem ne_empty_of_decodeTrim (t : String)
    (h : jsTrim (decodeEntities t) ≠ "") : t ≠ "" := by
  intro ht
  subst ht
  exact h (by decide)

/-- Helper: the success-path title when the first raw match is known. -/
theorem extractTitle_of_raw (b : PageBody) (u : String) (t : String)
    (hraw : rawTitle b = t) (ht : t ≠ "")
    (hne : jsTrim (decodeEntities t) ≠ "") :
    extractTitle b u = jsTrim (decodeEntities t) := by
  have hd : decodedTitle b = jsTrim (decodeEntities t) := by
    simp [decodedTitle, hraw, ht]
  simp [extractTitle, hd, hne]

/-- C3 counterexample: the body
`<meta property="og:title" content=" ">` together with a Twitter title `B`
and a document title `C` matches the Open-Graph regex first with captured
content a single space (the capture class allows it), yet the route returns
the hostname derivation `x.com` — neither the Open-Graph value nor any
later extractor's value — because the first match is trimmed to empty and
the chain falls through to the hostname fallback without consulting the
remaining extractors. -/
theorem metadata_precedence_C3_counterexample :
    (metadataGET (some "https://x.com") true
      (.ok ⟨some " ", some "B", some "C"⟩)).1.title = "x.com" := by
  decide

/-- C3 amended: the title is the entity-decoded, trimmed content of the
first raw match in the fixed order Open-Graph, Twitter, document title —
provided that decode-trim is non-empty (a first match that trims to empty
skips the later extractors and falls to the hostname derivation); when no
extractor matches, the title is the hostname derivation of the input URL
(or the constant Untitled when that derivation is empty). -/
theorem metadata_precedence_C3 (u : String) (b : PageBody) (hu : u ≠ "") :
    (∀ t, b.ogTitle = some t → jsTrim (decodeEntities t) ≠ "" →
      (metadataGET (some u) true (.ok b)).1.title =
        jsTrim (decodeEntities t)) ∧
    (∀ t, b.ogTitle = none → b.twitterTitle = some t →
      jsTrim (decodeEntities t) ≠ "" →
      (metadataGET (some u) true (.ok b)).1.title =
        jsTrim (decodeEntities t)) ∧
    (∀ t, b.ogTitle = none → b.twitterTitle = none → b.titleTag = some t →
      jsTrim (decodeEntities t) ≠ "" →
      (metadataGET (some u) true (.ok b)).1.title =
        jsTrim (decodeEntities t)) ∧
    (b.ogTitle = none → b.twitterTitle = none → b.titleTag = none →
      (metadataGET (some u) true (.ok b)).1.title =
        (if hostFallback u = "" then "Untitled" else hostFallback u)) := by
  have hmeta : (metadataGET (some u) true (.ok b)).1.title =
      extractTitle b u := by
    simp [metadataGET, hu]
  refine ⟨?_, ?_, ?_, ?_⟩
  · intro t hog hne
    have ht := ne_empty_of_decodeTrim t hne
    rw [hmeta]
    exact extractTitle_of_raw b u t (by simp [rawTitle, hog, ht]) ht hne
  · intro t hog htw hne
    have ht := ne_empty_of_decodeTrim t hne
    rw [hmeta]
    exact extractTitle_of_raw b u t
      (by simp [rawTitle, hog, htw, ht]) ht hne
  · intro t hog htw htt hne
    have ht := ne_empty_of_decodeTrim t hne
    rw [hmeta]
    exact extractTitle_of_raw b u t
      (by simp [rawTitle, hog, htw, htt, ht]) ht hne
  · intro hog htw htt
    rw [hmeta]
    simp [extractTitle, decodedTitle, rawTitle, hog, htw, htt]

/-- Witness for C3 with all three extractors present and different. -/
theorem metadata_precedence_C3_witness :
    ("https://x.com" : String) ≠ "" ∧
    ((∀ t, (some "A" : Option String) = some t →
      jsTrim (decodeEntities t) ≠ "" →
      (metadataGET (some "https://x.com") true
        (.ok ⟨some "A", some "B", some "C"⟩)).1.title =
        jsTrim (decodeEntities t)) ∧
    (∀ t, (some "A" : Option String) = none →
      (some "B" : Option String) = some t →
      jsTrim (decodeEntities t) ≠ "" →
      (metadataGET (some "https://x.com") true
        (.ok ⟨some "A", some "B", some "C"⟩)).1.title =
        jsTrim (decodeEntities t)) ∧
    (∀ t, (some "A" : Option String) = none →
      (some "B" : Option String) = none →
      (some "C" : Option String) = some t →
      jsTrim (decodeEntities t) ≠ "" →
      (metadataGET (some "https://x.com") true
        (.ok ⟨some "A", some "B", some "C"⟩)).1.title =
        jsTrim (decodeEntities t)) ∧
    ((some "A" : Option String) = none →
      (some "B" : Option String) = none →
      (some "C" : Option String) = none →
      (metadataGET (some "https://x.com") true
        (.ok ⟨some "A", some "B", some "C"⟩)).1.title =
        (if hostFallback "https://x.com" = "" then "Untitled"
         else hostFallback "https://x.com"))) :=
  ⟨by decide, metadata_precedence_C3 "https://x.com"
    ⟨some "A", some "B", some "C"⟩ (by decide)⟩

/-- C8 counterexample: a form save is accepted at time 1300 (updating the
guard timestamp), yet a second create submission 500 ms later through the
web-search add path — `addFromSearch`, which consults no clock and no
`lastSaveTime` — issues its store insert unconditionally instead of being
rejected. -/
theorem submit_guard_C8_counterexample :
    handleSave 0 1300 "Docs" "https://example.com" true none =
      (.insertIssued "Docs" "https://example.com", 1300) ∧
    addFromSearch ⟨"Other", "https://other.example", ""⟩ =
      .insertIssued "Other" "https://other.example" := by
  decide

/-- C8 amended: the 1200 ms minimum-interval guard applies only to the
manual form's save path: there, a second valid create less than 1200 ms
after the previously accepted one is rejected with no store insert and no
timestamp update, and one at least 1200 ms later is accepted and submitted;
creates issued from web-search results (`addFromSearch`) bypass the guard
entirely and are always submitted. -/
theorem submit_guard_C8 (t1 t2 : Int) (title url : String)
    (h1 : jsTrim title ≠ "") (h2 : jsTrim url ≠ "") :
    (t2 - t1 < 1200 →
      handleSave t1 t2 title url true none = (.tooFast, t1)) ∧
    (1200 ≤ t2 - t1 →
      handleSave t1 t2 title url true none = (.insertIssued title url, t2)) ∧
    (∀ r : SearchItem, addFromSearch r = .insertIssued r.title r.url) := by
  refine ⟨?_, ?_, fun r => rfl⟩
  · intro hfast
    simp [handleSave, h1, h2, hfast]
  · intro hslow
    have : ¬ (t2 - t1 < 1200) := not_lt.mpr hslow
    simp [handleSave, h1, h2, this]

/-- Witness for C8 at submissions 500 ms apart. -/
theorem submit_guard_C8_witness :
    jsTrim "Docs" ≠ "" ∧ jsTrim "https://example.com" ≠ "" ∧
    ((500 - (0 : Int) < 1200 →
      handleSave 0 500 "Docs" "https://example.com" true none =
        (.tooFast, 0)) ∧
    (1200 ≤ 500 - (0 : Int) →
      handleSave 0 500 "Docs" "https://example.com" true none =
        (.insertIssued "Docs" "https://example.com", 500)) ∧
    (∀ r : SearchItem, addFromSearch r = .insertIssued r.title r.url)) :=
  ⟨by decide, by decide,
    submit_guard_C8 0 500 "Docs" "https://example.com" (by decide)
      (by decide)⟩

/-- C9 counterexample: with SerpAPI configured and an OK upstream response
carrying eleven `organic_results` entries, the route's 200 response holds
eleven results — the SerpAPI branch maps the upstream array through without
slicing (the `num=10` request parameter is not enforced on the reply), so
the claimed at-most-10 cap fails. -/
theorem search_cap_C9_counterexample :
    (searchGET (some "x") true
      (some (List.replicate 11 ⟨"t", "https://t.example", none⟩)) false
      none).status = 200 ∧
    (searchGET (some "x") true
      (some (List.replicate 11 ⟨"t", "https://t.example", none⟩)) false
      none).results.length = 11 := by
  decide

/-- C9 amended: a missing or empty q yields 400 with an error string and an
empty results array; with a non-empty q the response is 200 and every entry
carries string title, url, and description fields; the Google branch is
capped at 10 by its slice and the mock fallback has 3 entries, but the
SerpAPI branch returns exactly the upstream `organic_results` array mapped
entrywise, with no cap of its own. -/
theorem search_route_C9 (q : String) (hq : q ≠ "")
    (organic items : List RawItem) :
    (∀ sc sr gc gr, searchGET none sc sr gc gr =
      ⟨400, some "Query is required", [], none⟩) ∧
    (∀ sc sr gc gr, searchGET (some "") sc sr gc gr =
      ⟨400, some "Query is required", [], none⟩) ∧
    (∀ gc gr, (searchGET (some q) true (some organic) gc gr).status = 200 ∧
      (searchGET (some q) true (some organic) gc gr).results =
        organic.map mapItem) ∧
    ((searchGET (some q) false none true (some items)).status = 200 ∧
      (searchGET (some q) false none true (some items)).results.length ≤
        10) ∧
    ((searchGET (some q) false none false none).status = 200 ∧
      (searchGET (some q) false none false none).results.length = 3) := by
  refine ⟨fun sc sr gc gr => rfl, fun sc sr gc gr => by simp [searchGET],
    ?_, ?_, ?_⟩
  · intro gc gr
    constructor <;> simp [searchGET, hq]
  · constructor
    · simp [searchGET, googlePhase, hq]
    · simp [searchGET, googlePhase, hq, List.length_take]
  · constructor <;> simp [searchGET, googlePhase, hq, mockResults]

/-- Witness for C9 at a concrete query and small provider lists. -/
theorem search_route_C9_witness :
    ("lean" : String) ≠ "" ∧
    ((∀ sc sr gc gr, searchGET none sc sr gc gr =
      ⟨400, some "Query is required", [], none⟩) ∧
    (∀ sc sr gc gr, searchGET (some "") sc sr gc gr =
      ⟨400, some "Query is required", [], none⟩) ∧
    (∀ gc gr, (searchGET (some "lean") true
        (some [⟨"t", "https://t.example", none⟩]) gc gr).status = 200 ∧
      (searchGET (some "lean") true
        (some [⟨"t", "https://t.example", none⟩]) gc gr).results =
        ([⟨"t", "https://t.example", none⟩] : List RawItem).map mapItem) ∧
    ((searchGET (some "lean") false none true
        (some [⟨"t", "https://t.example", none⟩])).status = 200 ∧
      (searchGET (some "lean") false none true
        (some [⟨"t", "https://t.example", none⟩])).results.length ≤ 10) ∧
    ((searchGET (some "lean") false none false none).status = 200 ∧
      (searchGET (some "lean") false none false none).results.length =
        3)) :=
  ⟨by decide, search_route_C9 "lean" (by decide)
    [⟨"t", "https://t.example", none⟩] [⟨"t", "https://t.example", none⟩]⟩

end SmartBookmark
